import Mathlib

/-!
Shallow embedding of `src/mcp_gh_project/github_client.py` (the GitHub
Projects v2 bridge) and proofs about its normalization and dispatch logic.

Modelling conventions:
* JSON values are the inductive `JSON`; GraphQL numbers are modelled as `Int`
  (all numbers relevant here are integers).
* Python truthiness is `pyTruthy`; the Python `a or b` coalesce is `pyOr`.
* Python `dict.get` on a JSON value is `jget` (an `AttributeError` when the
  receiver is not a dict), subscripting `d[k]` is `jindex` (a `KeyError` when
  the key is missing), and iteration over a value that is not a list raises
  a `TypeError` (`asList`).
* Each bridge method becomes a pure function of its arguments plus the JSON
  payload the GraphQL executor would return for its single query (the value
  of `data.get("data", {})` in `_execute_query`).  The first component of the
  result is the list of GraphQL requests issued (empty when validation fails
  before any network call); the second is the normalized result or the
  raised Python error.
* `pydantic` type validation of the result models is not modelled; entity
  fields keep the JSON values the code passes to the model constructors.
-/

inductive JSON where
  | null : JSON
  | bool : Bool → JSON
  | num : Int → JSON
  | str : String → JSON
  | arr : List JSON → JSON
  | obj : List (String × JSON) → JSON
deriving Repr

mutual

def jeq : JSON → JSON → Bool
  | .null, .null => true
  | .bool a, .bool b => a == b
  | .num a, .num b => a == b
  | .str a, .str b => a == b
  | .arr a, .arr b => jeqL a b
  | .obj a, .obj b => jeqO a b
  | _, _ => false

def jeqL : List JSON → List JSON → Bool
  | [], [] => true
  | x :: xs, y :: ys => jeq x y && jeqL xs ys
  | _, _ => false

def jeqO : List (String × JSON) → List (String × JSON) → Bool
  | [], [] => true
  | (k, v) :: xs, (k', v') :: ys => k == k' && jeq v v' && jeqO xs ys
  | _, _ => false

end

mutual

def jeq_iff : ∀ a b, jeq a b = true ↔ a = b
  | .null, .null => by simp [jeq]
  | .bool _, .bool _ => by simp [jeq]
  | .num _, .num _ => by simp [jeq]
  | .str _, .str _ => by simp [jeq]
  | .arr a, .arr b => by simp [jeq, jeqL_iff a b]
  | .obj a, .obj b => by simp [jeq, jeqO_iff a b]
  | .null, .bool _ => by simp [jeq]
  | .null, .num _ => by simp [jeq]
  | .null, .str _ => by simp [jeq]
  | .null, .arr _ => by simp [jeq]
  | .null, .obj _ => by simp [jeq]
  | .bool _, .null => by simp [jeq]
  | .bool _, .num _ => by simp [jeq]
  | .bool _, .str _ => by simp [jeq]
  | .bool _, .arr _ => by simp [jeq]
  | .bool _, .obj _ => by simp [jeq]
  | .num _, .null => by simp [jeq]
  | .num _, .bool _ => by simp [jeq]
  | .num _, .str _ => by simp [jeq]
  | .num _, .arr _ => by simp [jeq]
  | .num _, .obj _ => by simp [jeq]
  | .str _, .null => by simp [jeq]
  | .str _, .bool _ => by simp [jeq]
  | .str _, .num _ => by simp [jeq]
  | .str _, .arr _ => by simp [jeq]
  | .str _, .obj _ => by simp [jeq]
  | .arr _, .null => by simp [jeq]
  | .arr _, .bool _ => by simp [jeq]
  | .arr _, .num _ => by simp [jeq]
  | .arr _, .str _ => by simp [jeq]
  | .arr _, .obj _ => by simp [jeq]
  | .obj _, .null => by simp [jeq]
  | .obj _, .bool _ => by simp [jeq]
  | .obj _, .num _ => by simp [jeq]
  | .obj _, .str _ => by simp [jeq]
  | .obj _, .arr _ => by simp [jeq]

def jeqL_iff : ∀ xs ys, jeqL xs ys = true ↔ xs = ys
  | [], [] => by simp [jeqL]
  | [], _ :: _ => by simp [jeqL]
  | _ :: _, [] => by simp [jeqL]
  | x :: xs, y :: ys => by
      simp [jeqL, jeq_iff x y, jeqL_iff xs ys]

def jeqO_iff : ∀ xs ys, jeqO xs ys = true ↔ xs = ys
  | [], [] => by simp [jeqO]
  | [], _ :: _ => by simp [jeqO]
  | _ :: _, [] => by simp [jeqO]
  | (_, v) :: xs, (_, v') :: ys => by
      simp [jeqO, jeq_iff v v', jeqO_iff xs ys, and_assoc]

end

instance : DecidableEq JSON := fun a b => decidable_of_iff _ (jeq_iff a b)

/-- Python errors the bridge can raise, by kind. -/
inductive PyErr where
  | attributeError : PyErr
  | keyError : String → PyErr
  | typeError : PyErr
  | valueError : String → PyErr
  | exception : String → PyErr
deriving DecidableEq, Repr

/-- Python truthiness of a JSON value. -/
def pyTruthy : JSON → Bool
  | .null => false
  | .bool b => b
  | .num n => n != 0
  | .str s => s != ""
  | .arr l => !l.isEmpty
  | .obj fs => !fs.isEmpty

/-- Python `a or b`: the first operand when truthy, otherwise the second. -/
def pyOr (a b : JSON) : JSON :=
  if pyTruthy a then a else b

/-- Python truthiness of an `Optional[str]` argument (`None` and `""` are falsy). -/
def pyTruthyOpt : Option String → Bool
  | none => false
  | some s => s != ""

/-- Lookup of a key in a JSON object's field list (first match). -/
def lookupJ (k : String) : List (String × JSON) → Option JSON
  | [] => none
  | (k₀, v₀) :: rest => if k₀ = k then some v₀ else lookupJ k rest

/-- Python `j.get(k, dflt)`: `AttributeError` unless `j` is a dict. -/
def jget (j : JSON) (k : String) (dflt : JSON) : Except PyErr JSON :=
  match j with
  | .obj fs => .ok ((lookupJ k fs).getD dflt)
  | _ => .error .attributeError

/-- Python `j[k]` subscripting: `KeyError` when the key is absent. -/
def jindex (j : JSON) (k : String) : Except PyErr JSON :=
  match j with
  | .obj fs =>
      match lookupJ k fs with
      | some v => .ok v
      | none => .error (.keyError k)
  | _ => .error .typeError

/-- Iterating a JSON value as a Python list. -/
def asList (j : JSON) : Except PyErr (List JSON) :=
  match j with
  | .arr l => .ok l
  | _ => .error .typeError

/-- A Python dict with JSON keys and values, as an association list whose
key order is first-insertion order (Python dict semantics). -/
abbrev PyDict : Type := List (JSON × JSON)

/-- Python `d[k] = v`: replace the value at the first matching key in place,
otherwise append. -/
def dinsert : PyDict → JSON → JSON → PyDict
  | [], k, v => [(k, v)]
  | (k₀, v₀) :: rest, k, v =>
      if k₀ = k then (k, v) :: rest else (k₀, v₀) :: dinsert rest k v

/-- Lookup in a Python dict (first matching key). -/
def dlookup (k : JSON) : PyDict → Option JSON
  | [] => none
  | (k₀, v₀) :: rest => if k₀ = k then some v₀ else dlookup k rest

/-- Number of entries of a Python dict carrying the given key. -/
def countKey (k : JSON) : PyDict → Nat
  | [] => 0
  | (k₀, _) :: rest => (if k₀ = k then 1 else 0) + countKey k rest

/-- Fallible map over a list, mirroring a Python list comprehension whose
body may raise. -/
def mapME {α : Type} (f : JSON → Except PyErr α) : List JSON → Except PyErr (List α)
  | [] => .ok []
  | x :: xs => do
      let y ← f x
      let ys ← mapME f xs
      pure (y :: ys)

/-- The GraphQL requests the bridge can issue, with their variables. -/
inductive Req where
  | repoProjects (owner repo : String)
  | ownerProjects (owner : String)
  | projectNode (projectId : String)
  | projectItemsNode (projectId : String)
  | addDraftIssue (projectId title : String) (body : Option String)
  | addItemById (projectId contentId : String)
  | itemNode (itemId : String)
  | deleteItem (projectId itemId : String)
deriving DecidableEq, Repr

/-- The `GitHubProject` result model. -/
structure GitHubProject where
  id : JSON
  number : JSON
  title : JSON
  body : JSON
  state : String
  url : JSON
  owner : JSON
deriving DecidableEq, Repr

/-- The `GitHubProjectItem` result model. -/
structure GitHubProjectItem where
  id : JSON
  type : JSON
  content : JSON
  field_values : PyDict
  project : JSON
deriving DecidableEq, Repr

/-- `GitHubClient.__init__`: `self.token = token or os.getenv("GITHUB_TOKEN")`,
then `if not self.token: raise ValueError(...)`.  `env` is the value of the
`GITHUB_TOKEN` environment variable. -/
def resolveToken (token : Option String) (env : Option String) : Except PyErr String :=
  let t := if pyTruthyOpt token then token else env
  if pyTruthyOpt t then .ok (t.getD "")
  else .error (.valueError "GitHub token is required. Set GITHUB_TOKEN environment variable.")

/-- The `GitHubProject(...)` construction shared verbatim by
`list_projects` and `get_project` (github_client.py lines 144-155, 185-193). -/
def mkProject (p : JSON) : Except PyErr GitHubProject := do
  let i ← jindex p "id"
  let n ← jindex p "number"
  let t ← jindex p "title"
  let b ← jget p "shortDescription" .null
  let pub ← jget p "public" .null
  let u ← jindex p "url"
  let o ← jindex p "owner"
  pure { id := i, number := n, title := t, body := b,
         state := if pyTruthy pub then "open" else "private",
         url := u, owner := o }

/-- `GitHubClient.list_projects` (github_client.py lines 68-155). -/
def list_projects (owner repo : Option String) (resp : JSON) :
    List Req × Except PyErr (List GitHubProject) :=
  if pyTruthyOpt repo && pyTruthyOpt owner then
    ([Req.repoProjects (owner.getD "") (repo.getD "")],
     do
       let r ← jget resp "repository" (.obj [])
       let pv ← jget r "projectsV2" (.obj [])
       let nodesJ ← jget pv "nodes" (.arr [])
       let nodes ← asList nodesJ
       mapME mkProject nodes)
  else if pyTruthyOpt owner then
    ([Req.ownerProjects (owner.getD "")],
     do
       let r ← jget resp "repositoryOwner" (.obj [])
       let pv ← jget r "projectsV2" (.obj [])
       let nodesJ ← jget pv "nodes" (.arr [])
       let nodes ← asList nodesJ
       mapME mkProject nodes)
  else
    ([], .error (.valueError "Either \x27owner\x27 or both \x27owner\x27 and \x27repo\x27 must be provided"))

/-- `GitHubClient.get_project` (github_client.py lines 157-193). -/
def get_project (project_id : String) (resp : JSON) :
    List Req × Except PyErr GitHubProject :=
  ([Req.projectNode project_id],
   do
     let project_data ← jget resp "node" .null
     if !pyTruthy project_data then
       .error (.valueError ("Project with ID " ++ project_id ++ " not found"))
     else
       mkProject project_data)

/-- The comprehension filter `field_value.get("field", {}).get("name")`
(github_client.py line 278). -/
def fvFilter (fv : JSON) : Except PyErr JSON := do
  let f ← jget fv "field" (.obj [])
  jget f "name" .null

/-- The comprehension key `field_value.get("field", {}).get("name", "")`
(github_client.py line 272). -/
def fvKey (fv : JSON) : Except PyErr JSON := do
  let f ← jget fv "field" (.obj [])
  jget f "name" (.str "")

/-- The comprehension value
`field_value.get("text") or field_value.get("number") or field_value.get("name")`
(github_client.py lines 273-275). -/
def fvValue (fv : JSON) : Except PyErr JSON := do
  let t ← jget fv "text" .null
  let n ← jget fv "number" .null
  let m ← jget fv "name" .null
  pure (pyOr (pyOr t n) m)

/-- One step of the `field_values` dict comprehension for one field-value
node: `none` when the filter rejects the node, otherwise the key/value pair. -/
def stepOf (fv : JSON) : Except PyErr (Option (JSON × JSON)) := do
  let c ← fvFilter fv
  if pyTruthy c then
    let k ← fvKey fv
    let v ← fvValue fv
    pure (some (k, v))
  else
    pure none

/-- The `field_values` dict comprehension (github_client.py lines 271-279),
folded left over the field-value nodes with Python dict insertion. -/
def buildFieldValues (acc : PyDict) : List JSON → Except PyErr PyDict
  | [] => .ok acc
  | fv :: rest => do
      match ← stepOf fv with
      | some (k, v) => buildFieldValues (dinsert acc k v) rest
      | none => buildFieldValues acc rest

/-- The `GitHubProjectItem(...)` construction in the `list_project_items`
comprehension (github_client.py lines 267-281). -/
def mkItem (project_id : String) (item : JSON) : Except PyErr GitHubProjectItem := do
  let i ← jindex item "id"
  let t ← jindex item "type"
  let c ← jget item "content" .null
  let fvs ← jget item "fieldValues" (.obj [])
  let nodesJ ← jget fvs "nodes" (.arr [])
  let nodes ← asList nodesJ
  let d ← buildFieldValues [] nodes
  pure { id := i, type := t, content := c, field_values := d,
         project := .obj [("id", .str project_id)] }

/-- `GitHubClient.list_project_items` (github_client.py lines 195-283).
Note `data.get("node", {})` at line 264: when the response maps `"node"` to
JSON null the default is NOT used, so the following `.get("items", {})` is
attempted on `None`. -/
def list_project_items (project_id : String) (resp : JSON) :
    List Req × Except PyErr (List GitHubProjectItem) :=
  ([Req.projectItemsNode project_id],
   do
     let node ← jget resp "node" (.obj [])
     let its ← jget node "items" (.obj [])
     let nodesJ ← jget its "nodes" (.arr [])
     let nodes ← asList nodesJ
     mapME (mkItem project_id) nodes)

/-- The `GitHubProjectItem(...)` construction shared by both branches of
`create_project_item` (github_client.py lines 359-365). -/
def mkCreatedItem (project_id : String) (item_data : JSON) :
    Except PyErr GitHubProjectItem := do
  let i ← jindex item_data "id"
  let t ← jindex item_data "type"
  let c ← jget item_data "content" .null
  pure { id := i, type := t, content := c, field_values := [],
         project := .obj [("id", .str project_id)] }

/-- `GitHubClient.create_project_item` (github_client.py lines 285-365). -/
def create_project_item (project_id content_type : String)
    (content_id title body : Option String) (resp : JSON) :
    List Req × Except PyErr GitHubProjectItem :=
  if content_type = "DRAFT_ISSUE" then
    let t := if pyTruthyOpt title then title.getD "" else "New Draft Issue"
    ([Req.addDraftIssue project_id t body],
     do
       let a ← jget resp "addProjectV2DraftIssue" (.obj [])
       let item_data ← jget a "projectItem" .null
       if !pyTruthy item_data then .error (.exception "Failed to create project item")
       else mkCreatedItem project_id item_data)
  else
    if !pyTruthyOpt content_id then
      ([], .error (.valueError "content_id is required for non-draft issues"))
    else
      ([Req.addItemById project_id (content_id.getD "")],
       do
         let a ← jget resp "addProjectV2ItemById" (.obj [])
         let item_data ← jget a "item" .null
         if !pyTruthy item_data then .error (.exception "Failed to create project item")
         else mkCreatedItem project_id item_data)

/-- `GitHubClient.update_project_item` (github_client.py lines 367-419):
a single read of the item node; `field_values` of the result is set to the
caller-supplied `field_updates`. -/
def update_project_item (project_id item_id : String) (field_updates : PyDict)
    (resp : JSON) : List Req × Except PyErr GitHubProjectItem :=
  ([Req.itemNode item_id],
   do
     let item_data ← jget resp "node" .null
     if !pyTruthy item_data then
       .error (.valueError ("Project item with ID " ++ item_id ++ " not found"))
     else do
       let i ← jindex item_data "id"
       let t ← jindex item_data "type"
       let c ← jget item_data "content" .null
       pure { id := i, type := t, content := c, field_values := field_updates,
              project := JSON.obj [("id", JSON.str project_id)] })

/-- `GitHubClient.delete_project_item` (github_client.py lines 421-432). -/
def delete_project_item (project_id item_id : String) (resp : JSON) :
    List Req × Except PyErr Bool :=
  ([Req.deleteItem project_id item_id],
   do
     let d ← jget resp "deleteProjectV2Item" (.obj [])
     let v ← jget d "deletedItemId" .null
     pure (pyTruthy v))

@[simp] theorem bindE_ok {α β : Type} (a : α) (f : α → Except PyErr β) :
    (Except.ok a >>= f) = f a := rfl

@[simp] theorem bindE_err {α β : Type} (e : PyErr) (f : α → Except PyErr β) :
    ((Except.error e : Except PyErr α) >>= f) = .error e := rfl

@[simp] theorem pureE {α : Type} (a : α) : (pure a : Except PyErr α) = .ok a := rfl

theorem mapME_mem {α : Type} (f : JSON → Except PyErr α) :
    ∀ (l : List JSON) (res : List α), mapME f l = .ok res →
      ∀ y ∈ res, ∃ x ∈ l, f x = .ok y := by
  intro l
  induction l with
  | nil =>
      intro res h y hy
      simp [mapME] at h
      subst h
      simp at hy
  | cons x xs ih =>
      intro res h y hy
      rcases hfx : f x with e | y0
      · simp [mapME, hfx] at h
      · rcases hrest : mapME f xs with e | ys
        · simp [mapME, hfx, hrest] at h
        · simp [mapME, hfx, hrest] at h
          subst h
          rcases List.mem_cons.mp hy with rfl | hmem
          · exact ⟨x, List.mem_cons_self x xs, hfx⟩
          · rcases ih ys hrest y hmem with ⟨x', hx', hfx'⟩
            exact ⟨x', List.mem_cons_of_mem x hx', hfx'⟩

theorem dlookup_dinsert_self (d : PyDict) (k v : JSON) :
    dlookup k (dinsert d k v) = some v := by
  induction d with
  | nil => simp [dinsert, dlookup]
  | cons kv rest ih =>
      obtain ⟨k₀, v₀⟩ := kv
      by_cases hk : k₀ = k
      · simp [dinsert, hk, dlookup]
      · simp [dinsert, hk, dlookup, ih]

theorem dlookup_dinsert_ne (d : PyDict) (k k' v : JSON) (hne : k' ≠ k) :
    dlookup k (dinsert d k' v) = dlookup k d := by
  induction d with
  | nil => simp [dinsert, dlookup, hne]
  | cons kv rest ih =>
      obtain ⟨k₀, v₀⟩ := kv
      by_cases hk : k₀ = k'
      · subst hk
        simp [dinsert, dlookup, hne]
      · simp [dinsert, hk, dlookup, ih]

theorem countKey_dinsert (d : PyDict) (k k' v : JSON) :
    countKey k (dinsert d k' v) =
      if k' = k then max (countKey k d) 1 else countKey k d := by
  induction d with
  | nil =>
      by_cases hk : k' = k <;> simp [dinsert, countKey, hk]
  | cons kv rest ih =>
      obtain ⟨k₀, v₀⟩ := kv
      by_cases h0 : k₀ = k'
      · subst h0
        by_cases hk : k₀ = k
        · subst hk
          simp [dinsert, countKey]
        · simp [dinsert, countKey, hk]
      · by_cases hk' : k' = k
        · subst hk'
          have hk0 : ¬ k₀ = k' := h0
          simp [dinsert, h0, countKey, hk0, ih]
        · by_cases hk0 : k₀ = k
          · subst hk0
            simp [dinsert, h0, countKey, ih, hk']
          · simp [dinsert, h0, countKey, hk0, ih, hk']

theorem buildFieldValues_cons (acc : PyDict) (fv : JSON) (rest : List JSON) :
    buildFieldValues acc (fv :: rest) =
      match stepOf fv with
      | .error e => .error e
      | .ok none => buildFieldValues acc rest
      | .ok (some (k, v)) => buildFieldValues (dinsert acc k v) rest := by
  rcases h : stepOf fv with e | s
  · simp [buildFieldValues, h]
  · rcases s with _ | ⟨k, v⟩ <;> simp [buildFieldValues, h]

theorem buildFieldValues_untouched (k : JSON) :
    ∀ (nodes : List JSON) (acc d : PyDict),
      buildFieldValues acc nodes = .ok d →
      (∀ fv ∈ nodes, ∀ v', stepOf fv ≠ .ok (some (k, v'))) →
      dlookup k d = dlookup k acc ∧ countKey k d = countKey k acc := by
  intro nodes
  induction nodes with
  | nil =>
      intro acc d h _
      simp [buildFieldValues] at h
      subst h
      exact ⟨rfl, rfl⟩
  | cons fv rest ih =>
      intro acc d h hno
      have hno' : ∀ m ∈ rest, ∀ v', stepOf m ≠ .ok (some (k, v')) :=
        fun m hm => hno m (List.mem_cons_of_mem fv hm)
      rcases hs : stepOf fv with e | s
      · rw [buildFieldValues_cons, hs] at h
        simp at h
      · rcases s with _ | ⟨k2, v2⟩
        · rw [buildFieldValues_cons, hs] at h
          exact ih acc d h hno'
        · by_cases hk2 : k2 = k
          · subst hk2
            exact absurd hs (hno fv (List.mem_cons_self fv rest) v2)
          · rw [buildFieldValues_cons, hs] at h
            obtain ⟨h1, h2⟩ := ih (dinsert acc k2 v2) d h hno'
            refine ⟨?_, ?_⟩
            · rw [h1, dlookup_dinsert_ne _ _ _ _ hk2]
            · rw [h2, countKey_dinsert]
              simp [hk2]

theorem buildFieldValues_last (k v : JSON) :
    ∀ (pre : List JSON) (acc : PyDict) (n : JSON) (post : List JSON) (d : PyDict),
      buildFieldValues acc (pre ++ n :: post) = .ok d →
      stepOf n = .ok (some (k, v)) →
      (∀ m ∈ post, ∀ v', stepOf m ≠ .ok (some (k, v'))) →
      dlookup k d = some v ∧ countKey k d = max (countKey k acc) 1 := by
  intro pre
  induction pre with
  | nil =>
      intro acc n post d h hn hpost
      rw [List.nil_append, buildFieldValues_cons, hn] at h
      obtain ⟨h1, h2⟩ := buildFieldValues_untouched k post (dinsert acc k v) d h hpost
      refine ⟨?_, ?_⟩
      · rw [h1, dlookup_dinsert_self]
      · rw [h2, countKey_dinsert]
        simp
  | cons m pre' ih =>
      intro acc n post d h hn hpost
      rw [List.cons_append] at h
      rcases hs : stepOf m with e | s
      · rw [buildFieldValues_cons, hs] at h
        simp at h
      · rcases s with _ | ⟨k2, v2⟩
        · rw [buildFieldValues_cons, hs] at h
          exact ih acc n post d h hn hpost
        · rw [buildFieldValues_cons, hs] at h
          obtain ⟨h1, h2⟩ := ih (dinsert acc k2 v2) n post d h hn hpost
          refine ⟨h1, ?_⟩
          rw [h2, countKey_dinsert]
          by_cases hk2 : k2 = k
          · simp [hk2]
          · simp [hk2]

theorem mkProject_obj (j : JSON) (p : GitHubProject) (h : mkProject j = .ok p) :
    ∃ fs, j = .obj fs := by
  cases j <;> first
    | exact ⟨_, rfl⟩
    | simp [mkProject, jindex] at h

theorem mkProject_state (fs : List (String × JSON)) (p : GitHubProject)
    (h : mkProject (.obj fs) = .ok p) :
    p.state = if pyTruthy ((lookupJ "public" fs).getD JSON.null) then "open" else "private" := by
  rcases h1 : lookupJ "id" fs with _ | i
  · simp [mkProject, jindex, h1] at h
  rcases h2 : lookupJ "number" fs with _ | n
  · simp [mkProject, jindex, h1, h2] at h
  rcases h3 : lookupJ "title" fs with _ | t
  · simp [mkProject, jindex, h1, h2, h3] at h
  rcases h4 : lookupJ "url" fs with _ | u
  · simp [mkProject, jindex, jget, h1, h2, h3, h4] at h
  rcases h5 : lookupJ "owner" fs with _ | o
  · simp [mkProject, jindex, jget, h1, h2, h3, h4, h5] at h
  simp [mkProject, jindex, jget, h1, h2, h3, h4, h5] at h
  subst h
  rfl

theorem list_projects_ok_nodes (owner repo : Option String) (resp : JSON)
    (ps : List GitHubProject) (h : (list_projects owner repo resp).2 = .ok ps) :
    ∃ nodes, mapME mkProject nodes = .ok ps := by
  by_cases hc : (pyTruthyOpt repo && pyTruthyOpt owner) = true
  · simp only [list_projects, hc, if_true] at h
    rcases hr : jget resp "repository" (.obj []) with e | r
    · simp [hr] at h
    rcases hpv : jget r "projectsV2" (.obj []) with e | pv
    · simp [hr, hpv] at h
    rcases hnd : jget pv "nodes" (.arr []) with e | nodesJ
    · simp [hr, hpv, hnd] at h
    rcases hl : asList nodesJ with e | nodes
    · simp [hr, hpv, hnd, hl] at h
    refine ⟨nodes, ?_⟩
    simpa [hr, hpv, hnd, hl] using h
  · by_cases ho : pyTruthyOpt owner = true
    · have hrepo : pyTruthyOpt repo = false := by
        cases hR : pyTruthyOpt repo
        · rfl
        · exact absurd (by simp [hR, ho]) hc
      simp only [list_projects, ho, hrepo, Bool.false_and, Bool.false_eq_true,
        if_false, if_true] at h
      rcases hr : jget resp "repositoryOwner" (.obj []) with e | r
      · simp [hr] at h
      rcases hpv : jget r "projectsV2" (.obj []) with e | pv
      · simp [hr, hpv] at h
      rcases hnd : jget pv "nodes" (.arr []) with e | nodesJ
      · simp [hr, hpv, hnd] at h
      rcases hl : asList nodesJ with e | nodes
      · simp [hr, hpv, hnd, hl] at h
      refine ⟨nodes, ?_⟩
      simpa [hr, hpv, hnd, hl] using h
    · simp [list_projects, hc, ho] at h

/-- C2: `list_projects` issues the repository-scoped query when both `owner`
and `repo` are supplied (Python-truthy), the owner-scoped polymorphic query
when only `owner` is supplied, and raises the argument-validation
`ValueError` with no request issued when `owner` is not supplied — which
covers both "neither supplied" and "`repo` without `owner`". -/
theorem list_projects_dispatch (owner repo : Option String) (resp : JSON) :
    (pyTruthyOpt owner = true → pyTruthyOpt repo = true →
      (list_projects owner repo resp).1 =
        [Req.repoProjects (owner.getD "") (repo.getD "")]) ∧
    (pyTruthyOpt owner = true → pyTruthyOpt repo = false →
      (list_projects owner repo resp).1 = [Req.ownerProjects (owner.getD "")]) ∧
    (pyTruthyOpt owner = false →
      list_projects owner repo resp =
        ([], .error (.valueError
          "Either \x27owner\x27 or both \x27owner\x27 and \x27repo\x27 must be provided"))) := by
  refine ⟨fun ho hr => ?_, fun ho hr => ?_, fun ho => ?_⟩
  · simp [list_projects, ho, hr]
  · simp [list_projects, ho, hr]
  · simp [list_projects, ho]

/-- C2 witness: concrete dispatch on `("octocat", "hello")`, `("octocat", –)`
and `(–, "hello")`. -/
theorem list_projects_dispatch_witness :
    (list_projects (some "octocat") (some "hello") JSON.null).1 =
      [Req.repoProjects "octocat" "hello"] ∧
    (list_projects (some "octocat") none JSON.null).1 = [Req.ownerProjects "octocat"] ∧
    list_projects none (some "hello") JSON.null =
      ([], .error (.valueError
        "Either \x27owner\x27 or both \x27owner\x27 and \x27repo\x27 must be provided")) :=
  ⟨(list_projects_dispatch (some "octocat") (some "hello") JSON.null).1 rfl rfl,
   (list_projects_dispatch (some "octocat") none JSON.null).2.1 rfl rfl,
   (list_projects_dispatch none (some "hello") JSON.null).2.2 rfl⟩

/-- C3: on the claimed field-value nodes, the flattened mapping is exactly
`{"Status": "Done", "Points": 3}` and the empty-name node is dropped. -/
theorem list_project_items_flatten :
    (list_project_items "P"
      (.obj [("node", .obj [("items", .obj [("nodes", .arr [
        .obj [("id", .str "I1"), ("type", .str "ISSUE"),
          ("fieldValues", .obj [("nodes", .arr [
            .obj [("field", .obj [("name", .str "Status")]), ("name", .str "Done")],
            .obj [("field", .obj [("name", .str "Points")]), ("number", .num 3)],
            .obj [("field", .obj [("name", .str "")]), ("text", .str "x")]])])]])])])])).2 =
      .ok [⟨.str "I1", .str "ISSUE", JSON.null,
        [(.str "Status", .str "Done"), (.str "Points", .num 3)],
        .obj [("id", .str "P")]⟩] := by
  rfl

/-- C1 counterexample: a field-value node resolving the non-empty field name
"Points" whose sole value is the number 0 is stored as None (JSON null), not
as its sole value 0 — the Python `or` coalesce collapses falsy values. -/
theorem field_value_coalesce_counterexample :
    (list_project_items "P"
      (.obj [("node", .obj [("items", .obj [("nodes", .arr [
        .obj [("id", .str "I1"), ("type", .str "ISSUE"),
          ("fieldValues", .obj [("nodes", .arr [
            .obj [("field", .obj [("name", .str "Points")]),
              ("number", .num 0)]])])]])])])])).2 =
      .ok [⟨.str "I1", .str "ISSUE", JSON.null, [(.str "Points", JSON.null)],
        .obj [("id", .str "P")]⟩] ∧
    JSON.null ≠ JSON.num 0 :=
  ⟨rfl, by decide⟩

/-- C1 (amended): the value extracted from a field-value node is the Python
`or` coalesce of text, numeric and single-select values: it equals the
node's sole value whenever that value is truthy (and always for the
single-select name, the last operand), but a falsy sole text or numeric
value — such as the number 0 or an empty text string — collapses to None. -/
theorem field_value_coalesce (fs : List (String × JSON)) (v : JSON) :
    (lookupJ "text" fs = some v → lookupJ "number" fs = none →
      lookupJ "name" fs = none →
      fvValue (.obj fs) = .ok (if pyTruthy v then v else JSON.null)) ∧
    (lookupJ "text" fs = none → lookupJ "number" fs = some v →
      lookupJ "name" fs = none →
      fvValue (.obj fs) = .ok (if pyTruthy v then v else JSON.null)) ∧
    (lookupJ "text" fs = none → lookupJ "number" fs = none →
      lookupJ "name" fs = some v →
      fvValue (.obj fs) = .ok v) := by
  have hnull : pyTruthy JSON.null = false := rfl
  refine ⟨fun h1 h2 h3 => ?_, fun h1 h2 h3 => ?_, fun h1 h2 h3 => ?_⟩ <;>
    · simp only [fvValue, jget, h1, h2, h3, bindE_ok, pureE, Option.getD]
      by_cases hv : pyTruthy v <;> simp [pyOr, hv, hnull]

/-- C1 witness: a sole truthy numeric value is extracted unchanged. -/
theorem field_value_coalesce_witness :
    fvValue (.obj [("number", JSON.num 3)]) = .ok (JSON.num 3) := by
  have h := (field_value_coalesce [("number", JSON.num 3)] (JSON.num 3)).2.1 rfl rfl rfl
  simpa [pyTruthy] using h

/-- C4: `create_project_item` with `content_type = "DRAFT_ISSUE"` and no
title issues the draft-issue mutation with title "New Draft Issue"; with any
other content type and no `content_id` it raises the argument-validation
`ValueError` with no request issued. -/
theorem create_project_item_defaults :
    (∀ (project_id : String) (content_id body : Option String) (resp : JSON),
      (create_project_item project_id "DRAFT_ISSUE" content_id none body resp).1 =
        [Req.addDraftIssue project_id "New Draft Issue" body]) ∧
    (∀ (project_id content_type : String) (title body : Option String) (resp : JSON),
      content_type ≠ "DRAFT_ISSUE" →
      create_project_item project_id content_type none title body resp =
        ([], .error (.valueError "content_id is required for non-draft issues"))) := by
  constructor
  · intro pid cid body resp
    simp [create_project_item, pyTruthyOpt]
  · intro pid ct title body resp hct
    simp [create_project_item, hct, pyTruthyOpt]

/-- C4 witness: the draft default title and the ISSUE validation error at
concrete arguments. -/
theorem create_project_item_defaults_witness :
    (create_project_item "P1" "DRAFT_ISSUE" none none none JSON.null).1 =
      [Req.addDraftIssue "P1" "New Draft Issue" none] ∧
    create_project_item "P1" "ISSUE" none none none JSON.null =
      ([], .error (.valueError "content_id is required for non-draft issues")) :=
  ⟨create_project_item_defaults.1 "P1" none none JSON.null,
   create_project_item_defaults.2 "P1" "ISSUE" none none JSON.null (by decide)⟩

/-- C5: `update_project_item` issues exactly the one read request; when it
returns an item, that item's `field_values` is exactly the caller-supplied
`field_updates`; and a falsy (absent or null) fetched node raises the
not-found `ValueError`. -/
theorem update_project_item_echo (project_id item_id : String)
    (field_updates : PyDict) (resp : JSON) :
    (update_project_item project_id item_id field_updates resp).1 =
      [Req.itemNode item_id] ∧
    (∀ it, (update_project_item project_id item_id field_updates resp).2 = .ok it →
      it.field_values = field_updates) ∧
    (∀ fs, resp = JSON.obj fs →
      pyTruthy ((lookupJ "node" fs).getD JSON.null) = false →
      (update_project_item project_id item_id field_updates resp).2 =
        .error (.valueError ("Project item with ID " ++ item_id ++ " not found"))) := by
  refine ⟨rfl, ?_, ?_⟩
  · intro it h
    rcases hn : jget resp "node" JSON.null with e | nd
    · simp [update_project_item, hn] at h
    by_cases ht : pyTruthy nd
    · rcases hi : jindex nd "id" with e | i
      · simp [update_project_item, hn, ht, hi] at h
      rcases hty : jindex nd "type" with e | t
      · simp [update_project_item, hn, ht, hi, hty] at h
      rcases hc : jget nd "content" JSON.null with e | c
      · simp [update_project_item, hn, ht, hi, hty, hc] at h
      simp [update_project_item, hn, ht, hi, hty, hc] at h
      subst h
      rfl
    · simp [update_project_item, hn, ht] at h
  · intro fs hfs hfalse
    subst hfs
    simp [update_project_item, jget, hfalse]

/-- C5 witness: a successful echo of one field update and the not-found
error on a null node, at concrete inputs. -/
theorem update_project_item_echo_witness :
    (update_project_item "P" "I" [(JSON.str "Status", JSON.str "Done")]
      (JSON.obj [("node",
        JSON.obj [("id", JSON.str "I"), ("type", JSON.str "ISSUE")])])).1 =
      [Req.itemNode "I"] ∧
    (⟨JSON.str "I", JSON.str "ISSUE", JSON.null,
      [(JSON.str "Status", JSON.str "Done")],
      JSON.obj [("id", JSON.str "P")]⟩ : GitHubProjectItem).field_values =
      [(JSON.str "Status", JSON.str "Done")] ∧
    (update_project_item "P" "I" [] (JSON.obj [("node", JSON.null)])).2 =
      .error (.valueError "Project item with ID I not found") := by
  refine ⟨(update_project_item_echo "P" "I" _ _).1, ?_, ?_⟩
  · exact (update_project_item_echo "P" "I" [(JSON.str "Status", JSON.str "Done")]
      (JSON.obj [("node",
        JSON.obj [("id", JSON.str "I"), ("type", JSON.str "ISSUE")])])).2.1 _ rfl
  · exact (update_project_item_echo "P" "I" [] (JSON.obj [("node", JSON.null)])).2.2
      [("node", JSON.null)] rfl rfl

/-- C6: every project returned by `list_projects` comes from a response node
whose `public` field determines the state: `true` gives "open", `false` or
absent gives "private", and no other state value is ever produced. -/
theorem list_projects_state (owner repo : Option String) (resp : JSON)
    (ps : List GitHubProject) (h : (list_projects owner repo resp).2 = .ok ps) :
    ∀ p ∈ ps, ∃ fs : List (String × JSON),
      mkProject (.obj fs) = .ok p ∧
      (lookupJ "public" fs = some (JSON.bool true) → p.state = "open") ∧
      (lookupJ "public" fs = some (JSON.bool false) ∨ lookupJ "public" fs = none →
        p.state = "private") ∧
      (p.state = "open" ∨ p.state = "private") := by
  intro p hp
  obtain ⟨nodes, hmap⟩ := list_projects_ok_nodes owner repo resp ps h
  obtain ⟨j, hj, hjp⟩ := mapME_mem mkProject nodes ps hmap p hp
  obtain ⟨fs, rfl⟩ := mkProject_obj j p hjp
  have hst := mkProject_state fs p hjp
  refine ⟨fs, hjp, ?_, ?_, ?_⟩
  · intro hpub
    simp [hst, hpub]
    rfl
  · rintro (hpub | hpub) <;> simp [hst, hpub] <;> rfl
  · rw [hst]
    by_cases hb : pyTruthy ((lookupJ "public" fs).getD JSON.null) <;> simp [hb]

/-- C6 witness: a concrete owner-scoped response with `public: true` yields
a project whose state is "open" or "private". -/
theorem list_projects_state_witness :
    (⟨JSON.str "p1", JSON.num 1, JSON.str "T", JSON.null, "open", JSON.str "u",
      JSON.obj [("name", JSON.str "o")]⟩ : GitHubProject).state = "open" ∨
    (⟨JSON.str "p1", JSON.num 1, JSON.str "T", JSON.null, "open", JSON.str "u",
      JSON.obj [("name", JSON.str "o")]⟩ : GitHubProject).state = "private" := by
  obtain ⟨fs, _, _, _, hlast⟩ :=
    list_projects_state (some "o") none
      (JSON.obj [("repositoryOwner", JSON.obj [("projectsV2", JSON.obj [("nodes",
        JSON.arr [JSON.obj [("id", JSON.str "p1"), ("number", JSON.num 1),
          ("title", JSON.str "T"), ("public", JSON.bool true),
          ("url", JSON.str "u"),
          ("owner", JSON.obj [("name", JSON.str "o")])]])])])])
      [⟨JSON.str "p1", JSON.num 1, JSON.str "T", JSON.null, "open", JSON.str "u",
        JSON.obj [("name", JSON.str "o")]⟩] rfl
      ⟨JSON.str "p1", JSON.num 1, JSON.str "T", JSON.null, "open", JSON.str "u",
        JSON.obj [("name", JSON.str "o")]⟩ (List.mem_singleton.mpr rfl)
  exact hlast

/-- C7: `delete_project_item` always issues the delete mutation and returns
`true` exactly when the response carries a truthy (non-empty)
`deletedItemId`; a null or absent identifier — the "item never existed"
shape — yields `false`, and no input ever produces the not-found
`ValueError` (the only possible failure is an `AttributeError` from a
malformed response). -/
theorem delete_project_item_result (project_id item_id : String) :
    (∀ resp, (delete_project_item project_id item_id resp).1 =
      [Req.deleteItem project_id item_id]) ∧
    (∀ s : String,
      (delete_project_item project_id item_id
        (.obj [("deleteProjectV2Item", .obj [("deletedItemId", .str s)])])).2 =
        .ok (s != "")) ∧
    (delete_project_item project_id item_id
      (.obj [("deleteProjectV2Item", .obj [("deletedItemId", JSON.null)])])).2 =
      .ok false ∧
    (delete_project_item project_id item_id
      (.obj [("deleteProjectV2Item", .obj [])])).2 = .ok false ∧
    (∀ resp, (delete_project_item project_id item_id resp).2 = .ok true ∨
      (delete_project_item project_id item_id resp).2 = .ok false ∨
      (delete_project_item project_id item_id resp).2 =
        .error PyErr.attributeError) := by
  refine ⟨fun resp => rfl, fun s => rfl, rfl, rfl, fun resp => ?_⟩
  cases resp with
  | obj gs =>
      rcases hv : (lookupJ "deleteProjectV2Item" gs).getD (JSON.obj []) with
        _ | b | n | s | l | ds
      case obj =>
        rcases hb : pyTruthy ((lookupJ "deletedItemId" ds).getD JSON.null) with _ | _
        · right; left
          simp [delete_project_item, jget, hv, hb]
        · left
          simp [delete_project_item, jget, hv, hb]
      all_goals
        right; right
        simp [delete_project_item, jget, hv]
  | null => right; right; rfl
  | bool b => right; right; rfl
  | num n => right; right; rfl
  | str s => right; right; rfl
  | arr l => right; right; rfl

/-- C8: credential resolution at client construction: a non-empty explicit
token wins over any environment value; with no explicit token the non-empty
environment value is used; with neither (including empty strings, which are
falsy in Python) construction fails with the configuration `ValueError`. -/
theorem resolveToken_precedence :
    (∀ (t : String) (env : Option String), t ≠ "" →
      resolveToken (some t) env = .ok t) ∧
    (∀ e : String, e ≠ "" → resolveToken none (some e) = .ok e) ∧
    resolveToken none none =
      .error (.valueError
        "GitHub token is required. Set GITHUB_TOKEN environment variable.") ∧
    resolveToken (some "") none =
      .error (.valueError
        "GitHub token is required. Set GITHUB_TOKEN environment variable.") ∧
    resolveToken none (some "") =
      .error (.valueError
        "GitHub token is required. Set GITHUB_TOKEN environment variable.") := by
  refine ⟨fun t env ht => ?_, fun e he => ?_, rfl, rfl, rfl⟩
  · simp [resolveToken, pyTruthyOpt, ht]
  · simp [resolveToken, pyTruthyOpt, he]

/-- C8 witness: explicit token wins over the environment, environment used
when no token is supplied, error when neither is available. -/
theorem resolveToken_precedence_witness :
    resolveToken (some "tok-explicit") (some "tok-env") = .ok "tok-explicit" ∧
    resolveToken none (some "tok-env") = .ok "tok-env" ∧
    resolveToken none none =
      .error (.valueError
        "GitHub token is required. Set GITHUB_TOKEN environment variable.") :=
  ⟨resolveToken_precedence.1 "tok-explicit" (some "tok-env") (by decide),
   resolveToken_precedence.2.1 "tok-env" (by decide),
   resolveToken_precedence.2.2.1⟩

/-- C9: on any successful response whose top-level "node" key is JSON null,
`list_project_items` raises an `AttributeError` while normalizing (the
dict-get default is skipped because the key is present), never returning a
list and never raising the classified not-found `ValueError` — unlike
`get_project`, which raises exactly that not-found error on the same
response. -/
theorem list_project_items_null_node (project_id : String)
    (fs : List (String × JSON)) (h : lookupJ "node" fs = some JSON.null) :
    (list_project_items project_id (.obj fs)).2 = .error PyErr.attributeError ∧
    (∀ msg, (list_project_items project_id (.obj fs)).2 ≠
      .error (PyErr.valueError msg)) ∧
    (get_project project_id (.obj fs)).2 =
      .error (.valueError ("Project with ID " ++ project_id ++ " not found")) := by
  have h1 : (list_project_items project_id (.obj fs)).2 =
      .error PyErr.attributeError := by
    simp [list_project_items, jget, h]
  refine ⟨h1, ?_, ?_⟩
  · intro msg
    rw [h1]
    simp
  · simp [get_project, jget, h, pyTruthy]

/-- C9 witness: the concrete response with "node" mapped to null. -/
theorem list_project_items_null_node_witness :
    (list_project_items "PVT_1" (.obj [("node", JSON.null)])).2 =
      .error PyErr.attributeError ∧
    (get_project "PVT_1" (.obj [("node", JSON.null)])).2 =
      .error (.valueError "Project with ID PVT_1 not found") := by
  obtain ⟨h1, _, h3⟩ := list_project_items_null_node "PVT_1" [("node", JSON.null)] rfl
  exact ⟨h1, h3⟩

/-- C10: in the `field_values` flattening, when several nodes resolve the
same key, the final mapping carries that key exactly once, bound to the
value extracted from the last such node in response order. -/
theorem field_values_last_node_wins (pre post : List JSON) (n : JSON)
    (k v : JSON) (d : PyDict)
    (h : buildFieldValues [] (pre ++ n :: post) = .ok d)
    (hn : stepOf n = .ok (some (k, v)))
    (hpost : ∀ m ∈ post, ∀ v', stepOf m ≠ .ok (some (k, v'))) :
    dlookup k d = some v ∧ countKey k d = 1 := by
  obtain ⟨h1, h2⟩ := buildFieldValues_last k v pre [] n post d h hn hpost
  refine ⟨h1, ?_⟩
  simpa [countKey] using h2

/-- C10 witness: two "Status" nodes; the mapping holds "Status" once, bound
to the later node's value "Done". -/
theorem field_values_last_node_wins_witness :
    dlookup (JSON.str "Status") [(JSON.str "Status", JSON.str "Done")] =
      some (JSON.str "Done") ∧
    countKey (JSON.str "Status") [(JSON.str "Status", JSON.str "Done")] = 1 :=
  field_values_last_node_wins
    [JSON.obj [("field", JSON.obj [("name", JSON.str "Status")]),
      ("name", JSON.str "Todo")]] []
    (JSON.obj [("field", JSON.obj [("name", JSON.str "Status")]),
      ("name", JSON.str "Done")])
    (JSON.str "Status") (JSON.str "Done")
    [(JSON.str "Status", JSON.str "Done")] rfl rfl (by simp)
